import Mathlib

/-!
Verification development for the Interview Session Engine of the MODEL_FORGE
front end (src/frontend/src/components/EnhancedInterviewSession.tsx).

The TypeScript component is shallowly embedded below: pure helper functions
become Lean functions on `List Char` / `ℚ` / `ℕ`, the React state updated by
the handlers becomes explicit records, and the two sources of ambient
non-determinism (Math.random in the scorer, Date.now timestamps) become
explicit parameters.  JS numbers are modelled as `ℚ` (every quantity the
component manipulates is produced by exact decimal arithmetic), JS string
scanning is modelled character by character, and the JS `%` operator on
possibly-negative operands is modelled by `jsRem`.
-/

/-! ## Generic character / list utilities used by the embedded scorer -/

/-- JS `Array.prototype.slice(-n)`: the suffix holding the last `n` elements
(or the whole list when it is shorter than `n`). -/
def lastN (n : ℕ) (l : List α) : List α := l.drop (l.length - n)

/-- Split a character list at every character satisfying `p`, keeping empty
segments (the behaviour of JS `String.prototype.split` with a one-character
class; segments between consecutive separators are empty). -/
def splitWhen (p : Char → Bool) (l : List Char) : List (List Char) :=
  l.foldr
    (fun c acc =>
      if p c then [] :: acc
      else
        match acc with
        | [] => [[c]]
        | w :: ws => (c :: w) :: ws)
    [[]]

/-- JS `String.prototype.trim`: strip leading and trailing whitespace. -/
def trimChars (l : List Char) : List Char :=
  ((l.dropWhile (fun c => c.isWhitespace)).reverse.dropWhile
      (fun c => c.isWhitespace)).reverse

/-- JS regex word character class `\w` = `[A-Za-z0-9_]`. -/
def isWordChar (c : Char) : Bool := c.isAlpha || c.isDigit || c == '_'

/-- A `\b` boundary directly after a match whose last character is a word
character: the rest of the text must start with a non-word character (or
be empty). -/
def boundaryAfterWord (r : List Char) : Bool :=
  match r with
  | [] => true
  | c :: _ => !(isWordChar c)

/-- A `\b` boundary directly after a match whose last character is not a word
character (such as the literal `%`): the rest of the text must start with a
word character. -/
def boundaryAfterNonWord (r : List Char) : Bool :=
  match r with
  | [] => false
  | c :: _ => isWordChar c

/-- The literal phrase `phrase` (ending in a word character) matches at the
start of `l`, with a `\b` boundary after it. -/
def wordMatchHere (phrase l : List Char) : Bool :=
  phrase.isPrefixOf l && boundaryAfterWord (l.drop phrase.length)

/-- Scan every position of the text; `here` receives the suffix starting at a
position whose preceding character state gives a `\b` boundary there
(`prevW` tracks whether the previous character is a word character). -/
def scanPositions (here : List Char → Bool) : Bool → List Char → Bool
  | _, [] => false
  | prevW, c :: rest =>
    ((prevW != isWordChar c) && here (c :: rest)) ||
      scanPositions here (isWordChar c) rest

/-- `\b`-delimited alternation of literal phrases (case already folded by the
caller), as in `/\b(example|...)\b/i.test(text)`. -/
def wbAny (phrases : List (List Char)) (text : List Char) : Bool :=
  scanPositions (fun l => phrases.any (fun p => wordMatchHere p l)) false text

/-- Plain substring containment (a regex alternation without `\b`). -/
def containsSeq (pat : List Char) : List Char → Bool
  | [] => pat.isEmpty
  | c :: rest => pat.isPrefixOf (c :: rest) || containsSeq pat rest

/-- Containment of any of the patterns as a plain substring. -/
def containsAnySeq (pats : List (List Char)) (text : List Char) : Bool :=
  pats.any (fun p => containsSeq p text)

/-- Number of matches of a `\b`-anchored alternation, as counted by
`text.match(/.../g).length`.  For alternatives made only of letters a match
can never start strictly inside another match (the boundary test fails
there), so counting every boundary-anchored match position coincides with
the global-flag scan of the source. -/
def countOcc (here : List Char → Bool) : Bool → List Char → ℕ
  | _, [] => 0
  | prevW, c :: rest =>
    (if (prevW != isWordChar c) && here (c :: rest) then 1 else 0) +
      countOcc here (isWordChar c) rest

/-! ## Data model (src/types + component state) -/

/-- One facial observation pushed by the analysis collaborator.  The source
reads `entry.data.confidence || 0` etc.; absent fields default to `0`, so the
metric bag is modelled with total `ℚ` fields. -/
structure FacialData where
  confidence : ℚ
  engagement : ℚ
  eye_contact : ℚ
deriving DecidableEq

/-- An entry of `analysisHistory.facial`: `{ timestamp: Date.now(), data }`. -/
structure FacialEntry where
  timestamp : ℕ
  data : FacialData
deriving DecidableEq

/-- An entry the `analysisHistory.voice` array would hold. -/
structure VoiceEntry where
  timestamp : ℕ
  data : ℕ
deriving DecidableEq

/-- The component state touched by the voice-analysis handler:
`voiceAnalysisData` (latest sample, payload modelled opaquely) and the
`analysisHistory.voice` array. -/
structure VoiceTelemetryState where
  latestVoice : Option ℕ
  voiceHistory : List VoiceEntry
deriving DecidableEq

/-- `InterviewScore` (src/types), with the component's initial values. -/
structure InterviewScore where
  totalScore : ℚ
  questionsAnswered : ℕ
  questionsSkipped : ℕ
  averageResponseTime : ℚ
  confidence : ℚ
  engagement : ℚ
  eyeContact : ℚ
  communication : ℚ
deriving DecidableEq

/-- The initial `interviewScore` state of the component. -/
def initialInterviewScore : InterviewScore :=
  { totalScore := 0
    questionsAnswered := 0
    questionsSkipped := 0
    averageResponseTime := 0
    confidence := 0.50
    engagement := 0.50
    eyeContact := 0.50
    communication := 0.50 }

/-- Result record of `calculateRealisticScore` / the remote evaluator. -/
structure Evaluation where
  score : ℚ
  feedback : String
  strengths : List String
  improvements : List String
deriving DecidableEq

/-- An entry of `analysisHistory.responses`. -/
structure ResponseEntry where
  question : String
  answer : String
  score : ℚ
  duration : ℚ
  timestamp : ℕ
deriving DecidableEq

/-- The slice of component state the answer-processing, recording and skip
handlers read and write.  `alerts` records the user-facing error surface
(`window.alert` calls). -/
structure SessionState where
  isRecording : Bool
  currentAnswer : String
  audioChunks : List ℕ
  currentQuestion : String
  interviewScore : InterviewScore
  responses : List ResponseEntry
  alerts : List String
deriving DecidableEq

/-- What `proceedToNextStep` / `skipQuestion` schedule after handling the
current question. -/
inductive NextAction where
  | nextQuestion : NextAction
  | endInterview : NextAction
deriving DecidableEq

/-- `MAX_QUESTIONS` from the component. -/
def MAX_QUESTIONS : ℕ := 5

/-! ## Telemetry ingestion (WebSocket handlers) -/

/-- The facial-analysis handler's history update:
`[...prev.facial, { timestamp, data }].slice(-50)`. -/
def ingestFacial (history : List FacialEntry) (e : FacialEntry) : List FacialEntry :=
  lastN 50 (history ++ [e])

/-- The voice-analysis handler (`setOnVoiceAnalysis`): it only stores the
latest sample via `setVoiceAnalysisData(data)`; it never touches
`analysisHistory.voice`. -/
def onVoiceAnalysis (s : VoiceTelemetryState) (data : ℕ) : VoiceTelemetryState :=
  { s with latestVoice := some data }

/-! ## Skip handling -/

/-- `calculateSkipPenalty` from the component. -/
def calculateSkipPenalty (totalSkips totalQuestions : ℕ) : ℚ :=
  let skipRate : ℚ := (totalSkips : ℚ) / (totalQuestions : ℚ)
  if 0.8 ≤ skipRate then 50
  else if 0.6 ≤ skipRate then 40
  else if 0.4 ≤ skipRate then 30
  else if 0.2 ≤ skipRate then 20
  else 12

/-- The `setInterviewScore` updater inside `skipQuestion`. -/
def skipQuestionUpdate (prev : InterviewScore) : InterviewScore :=
  let newQuestionsSkipped := prev.questionsSkipped + 1
  let newTotalQuestions := prev.questionsAnswered + newQuestionsSkipped
  let skipPenalty := calculateSkipPenalty newQuestionsSkipped newTotalQuestions
  let afterPenalty : ℚ := max 0 (prev.totalScore - skipPenalty)
  let skipRate : ℚ := (newQuestionsSkipped : ℚ) / (newTotalQuestions : ℚ)
  let newTotalScore : ℚ :=
    if 0.6 ≤ skipRate then min afterPenalty 15
    else if 0.4 ≤ skipRate then min afterPenalty 35
    else afterPenalty
  { prev with
    totalScore := newTotalScore
    questionsSkipped := newQuestionsSkipped
    confidence := max 0.05 (prev.confidence - 0.25)
    engagement := max 0.05 (prev.engagement - 0.20)
    communication := max 0.05 (prev.communication - 0.15) }

/-! ## Score merging -/

/-- The `setInterviewScore` updater inside `updateScoreWithEvaluation`:
each answered question contributes `score * 0.20` points and the running
mean of response times is updated. -/
def updateScoreWithEvaluation (prev : InterviewScore) (score responseTime : ℚ) :
    InterviewScore :=
  let newQuestionsAnswered := prev.questionsAnswered + 1
  let questionValue := score * 0.20
  { prev with
    totalScore := prev.totalScore + questionValue
    questionsAnswered := newQuestionsAnswered
    averageResponseTime :=
      (prev.averageResponseTime * (prev.questionsAnswered : ℚ) + responseTime) /
        ((newQuestionsAnswered : ℕ) : ℚ) }

/-! ## The local heuristic scorer `calculateRealisticScore`

Feature extraction, translated regex by regex from the component.  All
case-insensitive (`/i`, `/gi`) tests run on the lower-cased trimmed answer.
-/

/-- `answer.trim()` as a character list. -/
def trimmedOf (answer : String) : List Char := trimChars answer.data

/-- The lower-cased trimmed answer (for the `/i` and `/gi` regex tests and
the explicit `toLowerCase()` calls). -/
def loweredOf (answer : String) : List Char := (trimmedOf answer).map Char.toLower

/-- `trimmedAnswer.split(/\s+/).filter(word => word.length > 1)`: the
countable words (splitting on each whitespace character produces the same
filtered list, since empty segments have length 0). -/
def wordsOf (answer : String) : List (List Char) :=
  (splitWhen (fun c => c.isWhitespace) (trimmedOf answer)).filter
    (fun w => 1 < w.length)

/-- `wordCount` of the scorer. -/
def wordCountOf (answer : String) : ℕ := (wordsOf answer).length

/-- `trimmedAnswer.split(/[.!?]+/).filter(s => s.trim().length > 2).length`
(splitting at each punctuation character produces the same filtered list,
since segments between consecutive separators trim to length 0). -/
def sentenceCountOf (answer : String) : ℕ :=
  ((splitWhen (fun c => c == '.' || c == '!' || c == '?') (trimmedOf answer)).filter
      (fun s => 2 < (trimChars s).length)).length

/-- Alternatives of the `hasSpecificExamples` regex, lower-cased. -/
def examplePhrases : List (List Char) :=
  ["example", "instance", "situation", "time when", "experience", "project",
    "when i", "i worked", "i handled", "i managed"].map String.data

/-- Word alternatives of the `hasQuantifiableResults` regex. -/
def quantWords : List (List Char) :=
  ["increased", "decreased", "improved", "reduced", "achieved", "saved",
    "gained", "grew", "doubled", "tripled"].map String.data

/-- Unit words of the `\d+\s*(users|...)` alternative. -/
def quantUnits : List (List Char) :=
  ["users", "customers", "sales", "revenue", "efficiency"].map String.data

/-- Keywords of the `hasSTARStructure` regex (no `\b` in the source regex,
so plain substring containment). -/
def starWords : List (List Char) :=
  ["situation", "task", "action", "result", "challenge", "problem",
    "solution", "outcome"].map String.data

/-- Verb alternatives of the `technicalTerms` regex. -/
def techWords : List (List Char) :=
  ["developed", "designed", "implemented", "managed", "led", "created",
    "optimized", "solved", "programmed", "architected", "deployed",
    "maintained", "debugged", "tested", "analyzed"].map String.data

/-- One position of the `hasQuantifiableResults` alternation
`\b(\d+%|\d+\s*percent|\$\d+|increased|...|\d+\s*(users|...))\b` (the
boundary before the position is checked by the scanner; the trailing `\b`
depends on the last matched character, which is `%` for the first
alternative, a digit for the `\$\d+` alternative and a letter otherwise). -/
def quantHere (l : List Char) : Bool :=
  let d := l.takeWhile (fun c => c.isDigit)
  let afterD := l.drop d.length
  let afterWs := afterD.dropWhile (fun c => c.isWhitespace)
  (!d.isEmpty &&
    (match afterD with
      | '%' :: r => boundaryAfterNonWord r
      | _ => false)) ||
  (!d.isEmpty && wordMatchHere "percent".data afterWs) ||
  (match l with
    | '$' :: r =>
      let d2 := r.takeWhile (fun c => c.isDigit)
      !d2.isEmpty && boundaryAfterWord (r.drop d2.length)
    | _ => false) ||
  quantWords.any (fun p => wordMatchHere p l) ||
  (!d.isEmpty && quantUnits.any (fun p => wordMatchHere p afterWs))

/-- `hasSpecificExamples` of the scorer. -/
def hasSpecificExamplesOf (answer : String) : Bool :=
  wbAny examplePhrases (loweredOf answer)

/-- `hasQuantifiableResults` of the scorer. -/
def hasQuantifiableResultsOf (answer : String) : Bool :=
  scanPositions quantHere false (loweredOf answer)

/-- `hasSTARStructure` of the scorer. -/
def hasSTARStructureOf (answer : String) : Bool :=
  containsAnySeq starWords (loweredOf answer)

/-- `technicalTerms` of the scorer (count of `/g` matches). -/
def technicalTermsOf (answer : String) : ℕ :=
  countOcc (fun l => techWords.any (fun p => wordMatchHere p l)) false
    (loweredOf answer)

/-- `trimmedAnswer.includes(',') || trimmedAnswer.includes(';')`. -/
def hasCommaOf (answer : String) : Bool :=
  (trimmedOf answer).contains ',' || (trimmedOf answer).contains ';'

/-- The hedging test
`toLowerCase().includes('i dont know') || toLowerCase().includes('not sure')`. -/
def hedgingOf (answer : String) : Bool :=
  containsSeq "i dont know".data (loweredOf answer) ||
    containsSeq "not sure".data (loweredOf answer)

/-- The carelessness test: more than 80% of the `split(' ')` tokens equal
their own lower-casing. -/
def lcHeavyOf (answer : String) : Bool :=
  decide
    ((((splitWhen (fun c => c == ' ') (trimmedOf answer)).filter
          (fun w => w == w.map Char.toLower)).length : ℚ) >
      (wordCountOf answer : ℚ) * 0.8)

/-! Additive scoring components of the full-scoring branch. -/

/-- Communication clarity: +10 at each of the 20/40/60 word thresholds. -/
def clarityScore (wordCount : ℕ) : ℕ :=
  (if 20 ≤ wordCount then 10 else 0) +
  (if 40 ≤ wordCount then 10 else 0) +
  (if 60 ≤ wordCount then 10 else 0)

/-- Structure: +5 for ≥2 sentences, +10 for a mean sentence length in
[8,25] words, +5 for a comma or semicolon. -/
def structureScore (wordCount sentenceCount : ℕ) (hasComma : Bool) : ℕ :=
  let avgWordsPerSentence : ℚ :=
    if 0 < sentenceCount then (wordCount : ℚ) / (sentenceCount : ℚ) else 0
  (if 2 ≤ sentenceCount then 5 else 0) +
  (if 8 ≤ avgWordsPerSentence ∧ avgWordsPerSentence ≤ 25 then 10 else 0) +
  (if hasComma then 5 else 0)

/-- Timing component of the scorer. -/
def timingScore (responseTime : ℚ) : ℕ :=
  if responseTime < 5 then 0
  else if responseTime < 15 then 5
  else if 20 ≤ responseTime ∧ responseTime ≤ 120 then 15
  else if responseTime ≤ 180 then 10
  else 5

/-- Non-verbal component: averages over the last 10 facial samples; the
source's `Math.round` is the identity on this multiple-of-5 integer sum. -/
def nonverbalScore (facial : List FacialEntry) : ℕ :=
  if facial.length = 0 then 0
  else
    let recent := lastN 10 facial
    let n : ℚ := (recent.length : ℚ)
    let avgConfidence := ((recent.map (fun e => e.data.confidence)).sum) / n
    let avgEngagement := ((recent.map (fun e => e.data.engagement)).sum) / n
    let avgEyeContact := ((recent.map (fun e => e.data.eye_contact)).sum) / n
    (if 0.6 < avgConfidence then 5 else 0) +
    (if 0.6 < avgEngagement then 5 else 0) +
    (if 0.6 < avgEyeContact then 5 else 0)

/-- Quality bonuses, each gated on a minimum word count. -/
def bonusScore (wordCount : ℕ) (hasEx hasQuant hasSTAR : Bool)
    (techTerms : ℕ) : ℕ :=
  (if hasEx = true ∧ 30 ≤ wordCount then 10 else 0) +
  (if hasQuant = true ∧ 25 ≤ wordCount then 10 else 0) +
  (if hasSTAR = true ∧ 40 ≤ wordCount then 10 else 0) +
  (if 2 ≤ techTerms ∧ 35 ≤ wordCount then 5 else 0)

/-- Lines 184-214 of the component, abstracted over the values of the
structure, timing and non-verbal components and the content flags: sum the
components and bonuses, apply the hedging multiplier
(`Math.floor(total * 0.7)`), the capitalisation penalty, the three
word-count / content caps in source order, and the final clamp to [0,100]. -/
def fullScoreCore (wordCount : ℕ) (structureS timingS nonverbalS : ℕ)
    (hasEx hasQuant hasSTAR : Bool) (techTerms : ℕ)
    (hedging lcHeavy : Bool) : ℤ :=
  let base : ℕ :=
    clarityScore wordCount + structureS + timingS + nonverbalS +
      bonusScore wordCount hasEx hasQuant hasSTAR techTerms
  let afterHedge : ℕ := if hedging then 7 * base / 10 else base
  let afterCase : ℤ := if lcHeavy then (afterHedge : ℤ) - 5 else (afterHedge : ℤ)
  let cap1 : ℤ := if wordCount < 20 then min afterCase 35 else afterCase
  let cap2 : ℤ :=
    if wordCount < 30 ∧ hasEx = false then min cap1 45 else cap1
  let cap3 : ℤ :=
    if hasEx = false ∧ hasQuant = false ∧ hasSTAR = false then min cap2 50
    else cap2
  max 0 (min 100 cap3)

/-- The full-scoring branch (word count ≥ 15) of `calculateRealisticScore`:
score via `fullScoreCore`, then the strengths / improvements lists and the
feedback band, in source order. -/
def fullEvaluation (facialHistory : List FacialEntry) (answer : String)
    (responseTime : ℚ) : Evaluation :=
  let wc := wordCountOf answer
  let hasEx := hasSpecificExamplesOf answer
  let hasQuant := hasQuantifiableResultsOf answer
  let hasSTAR := hasSTARStructureOf answer
  let techTerms := technicalTermsOf answer
  let clarityS := clarityScore wc
  let structureS := structureScore wc (sentenceCountOf answer) (hasCommaOf answer)
  let timingS := timingScore responseTime
  let nonverbalS := nonverbalScore facialHistory
  let totalScore : ℤ :=
    fullScoreCore wc structureS timingS nonverbalS hasEx hasQuant hasSTAR
      techTerms (hedgingOf answer) (lcHeavyOf answer)
  let strengths0 : List String :=
    (if hasEx = true ∧ 25 ≤ wc then
      ["Used specific examples to support your answer"] else []) ++
    (if hasQuant = true ∧ 20 ≤ wc then
      ["Included measurable results and impact"] else []) ++
    (if hasSTAR = true ∧ 30 ≤ wc then
      ["Followed a structured approach (STAR method)"] else []) ++
    (if 50 ≤ wc ∧ 20 ≤ clarityS then
      ["Provided comprehensive and detailed response"] else []) ++
    (if 10 ≤ nonverbalS then
      ["Demonstrated confidence through body language"] else []) ++
    (if 2 ≤ techTerms then
      ["Used relevant technical terminology effectively"] else []) ++
    (if 10 ≤ timingS then
      ["Took appropriate time to think through the response"] else [])
  let strengths : List String :=
    if strengths0.isEmpty ∧ 0 < wc then
      ["Made an attempt to answer the question"]
    else strengths0
  let improvements0 : List String :=
    (if wc < 20 then
      ["Expand your answers with significantly more detail and depth"] else []) ++
    (if 20 ≤ wc ∧ wc < 40 then
      ["Provide more comprehensive explanations with additional context"] else []) ++
    (if hasEx = false then
      ["Include concrete examples from your actual experience"] else []) ++
    (if hasQuant = false then
      ["Add measurable outcomes and impact of your work"] else []) ++
    (if hasSTAR = false then
      ["Structure responses using STAR method (Situation, Task, Action, Result)"] else []) ++
    (if responseTime < 10 then
      ["Take more time to think and plan your response"] else []) ++
    (if 150 < responseTime then
      ["Work on being more concise while maintaining detail"] else []) ++
    (if nonverbalS < 5 then
      ["Maintain better eye contact and show more engagement"] else []) ++
    (if techTerms = 0 ∧ 15 < wc then
      ["Include more specific technical terminology relevant to the role"] else [])
  let improvements : List String :=
    if improvements0.isEmpty ∧ totalScore < 85 then
      ["Continue practicing to refine your interview responses"]
    else improvements0
  let feedback : String :=
    if 85 ≤ totalScore then
      "Excellent response! Strong content with specific examples and clear impact."
    else if 70 ≤ totalScore then
      "Good response with solid content. Could be enhanced with more specific examples."
    else if 50 ≤ totalScore then
      "Adequate start, but needs more depth, examples, and structure to be compelling."
    else if 25 ≤ totalScore then
      "Basic attempt, but significantly lacks detail and specific examples. Needs major improvement."
    else
      "Insufficient response. Focus on providing detailed answers with concrete examples from your experience."
  { score := (totalScore : ℚ)
    feedback := feedback
    strengths := strengths
    improvements := improvements }

/-- `calculateRealisticScore(answer, responseTime, question)`, with the
ambient facial history and the two `Math.random()` draws of the short-answer
branches made explicit (`r1 % 10 + 5` models `floor(random()*10)+5`,
`r2 % 20 + 10` models `floor(random()*20)+10`; `question` is unused in the
source as well). -/
def calculateRealisticScore (facialHistory : List FacialEntry) (r1 r2 : ℕ)
    (answer : String) (responseTime : ℚ) (question : String) : Evaluation :=
  if wordCountOf answer = 0 ∨ (trimmedOf answer).length < 3 then
    { score := 0
      feedback := "No meaningful response provided. Please answer the question with specific details."
      strengths := []
      improvements :=
        ["Provide a complete answer to the question",
          "Use specific examples from your experience",
          "Speak clearly and confidently"] }
  else if wordCountOf answer < 5 then
    { score := ((r1 % 10 + 5 : ℕ) : ℚ)
      feedback := "Response is too brief and lacks substance. Elaborate with specific examples."
      strengths := ["Attempted to answer"]
      improvements :=
        ["Provide much more detail", "Include specific examples",
          "Explain your thought process",
          "Use the STAR method (Situation, Task, Action, Result)"] }
  else if wordCountOf answer < 15 then
    { score := ((r2 % 20 + 10 : ℕ) : ℚ)
      feedback := "Response needs significant development. Add more detail and examples."
      strengths := if 8 < wordCountOf answer then ["Provided a basic answer"] else []
      improvements :=
        ["Expand your answer with more detail", "Include specific examples",
          "Explain the impact of your actions"] }
  else
    fullEvaluation facialHistory answer responseTime

/-! ## Remote evaluation with local fallback, and answer processing -/

/-- `evaluateResponse`: the remote comprehensive evaluation is attempted
first; any failure (network error, non-2xx response, timeout — all of which
reach the `catch` block) falls back to the local heuristic on the same
transcript and elapsed time.  The outcome of the remote call is the explicit
`remote` argument. -/
def evaluateResponse (remote : Except String Evaluation)
    (facialHistory : List FacialEntry) (r1 r2 : ℕ)
    (transcript : String) (responseTime : ℚ) (question : String) : Evaluation :=
  match remote with
  | Except.ok evaluation => evaluation
  | Except.error _ => calculateRealisticScore facialHistory r1 r2 transcript responseTime question

/-- The answer-processing pipeline after a recording stops:
`evaluateResponse` → `updateScoreWithEvaluation` (response entry appended,
score merged) → `proceedToNextStep` (clear the transcript and audio chunks,
then schedule the next question or the end of the interview).  `now` models
`Date.now()`.  No branch of this pipeline raises a user-facing alert. -/
def processAnswer (remote : Except String Evaluation)
    (facialHistory : List FacialEntry) (r1 r2 : ℕ) (now : ℕ)
    (responseTime : ℚ) (st : SessionState) : SessionState × NextAction :=
  let evaluation :=
    evaluateResponse remote facialHistory r1 r2 st.currentAnswer responseTime
      st.currentQuestion
  let score := evaluation.score
  let entry : ResponseEntry :=
    { question := st.currentQuestion
      answer := String.mk (trimChars st.currentAnswer.data)
      score := score
      duration := responseTime
      timestamp := now }
  let totalQuestions :=
    st.interviewScore.questionsAnswered + 1 + st.interviewScore.questionsSkipped
  let next : NextAction :=
    if MAX_QUESTIONS ≤ totalQuestions then NextAction.endInterview
    else NextAction.nextQuestion
  ({ st with
      interviewScore := updateScoreWithEvaluation st.interviewScore score responseTime
      responses := st.responses ++ [entry]
      currentAnswer := ""
      audioChunks := [] },
    next)

/-! ## Recording lifecycle -/

/-- The alert text of the microphone-permission failure branch. -/
def micPermissionAlert : String :=
  "Unable to access microphone. Please check your browser permissions."

/-- `startRecording`: the recording flag is raised and the transcript and
audio chunks are cleared before the device is requested; if
`getUserMedia` rejects (`micOk = false`), the `catch` block lowers the flag
and surfaces the alert. -/
def startRecording (micOk : Bool) (st : SessionState) : SessionState :=
  let st1 := { st with isRecording := true, currentAnswer := "", audioChunks := ([] : List ℕ) }
  if micOk then st1
  else
    { st1 with
        isRecording := false
        alerts := st1.alerts ++ [micPermissionAlert] }

/-! ## Question generation fallback -/

/-- The JS `%` operator: remainder carrying the sign of the dividend. -/
def jsRem (a b : ℤ) : ℤ := a.sign * ((a.natAbs % b.natAbs : ℕ) : ℤ)

/-- JS array subscripting: an out-of-range (in particular negative) index
yields `undefined`, modelled as `none`. -/
def jsArrayGet (l : List String) (i : ℤ) : Option String :=
  if 0 ≤ i then l.get? i.toNat else none

/-- The five fixed fallback question templates of `generateNewQuestion`. -/
def fallbackQuestions (jobRole : String) : List String :=
  ["Tell me about a challenging situation in your " ++ jobRole ++
      " experience and how you handled it.",
    "What has been your most significant achievement relevant to the " ++
      jobRole ++ " role?",
    "How do you stay current with developments in your field as a " ++
      jobRole ++ "?",
    "Describe a time you had to collaborate cross-functionally to deliver a project. What was your approach?",
    "Where do you see yourself growing in the next 2 years in the " ++
      jobRole ++ " space?"]

/-- The question substituted on a generation failure:
`fallbackQuestions[(currentQuestionNumber - 1) % fallbackQuestions.length]`,
where `currentQuestionNumber` is the state value captured by the closure
(still `0` when the first question of a session is being generated). -/
def fallbackQuestionFor (jobRole : String) (currentQuestionNumber : ℕ) : Option String :=
  jsArrayGet (fallbackQuestions jobRole)
    (jsRem ((currentQuestionNumber : ℤ) - 1) ((fallbackQuestions jobRole).length : ℤ))

/-- A 60-countable-word STAR-structured answer containing the quantifiable
phrase "increased revenue by 20%" (Scenario B of the spec). -/
def scenarioBTranscript : String :=
  "In my previous project, the situation demanded that our team improve the checkout flow because many customers were leaving early. My task was clear, so I promptly developed a detailed plan and implemented several targeted changes quickly. The action involved careful testing with real users across many devices. As a result, we increased revenue by 20% and the outcome pleased every stakeholder involved."

/-! ## Helper lemmas -/

/-- `lastN` of an already-truncated history extended by one element equals
`lastN` of the full sequence extended by that element: re-truncation loses
nothing beyond what truncating the longer sequence loses. -/
theorem lastN_snoc (n : ℕ) (l : List α) (a : α) :
    lastN n (lastN n l ++ [a]) = lastN n (l ++ [a]) := by
  unfold lastN
  rcases Nat.le_total l.length n with h | h
  · rw [Nat.sub_eq_zero_of_le h, List.drop_zero]
  · have hd : (l.drop (l.length - n)).length = n := by
      rw [List.length_drop]; omega
    have h1 : l.length - n ≤ l.length := Nat.sub_le _ _
    rw [← List.drop_append_of_le_length h1, List.drop_drop]
    congr 1
    simp only [List.length_drop, List.length_append, List.length_cons, List.length_nil]
    omega

/-- Folding the facial ingestion over a sample list from a truncated
accumulator computes `lastN 50` of the full sequence. -/
theorem foldl_ingestFacial (samples : List FacialEntry) :
    ∀ acc : List FacialEntry,
      samples.foldl ingestFacial (lastN 50 acc) = lastN 50 (acc ++ samples) := by
  induction samples with
  | nil => intro acc; simp
  | cons e rest ih =>
    intro acc
    rw [List.foldl_cons]
    have he : ingestFacial (lastN 50 acc) e = lastN 50 (acc ++ [e]) := lastN_snoc 50 acc e
    rw [he, ih (acc ++ [e]), List.append_assoc]
    rfl

/-- The facial history after any ingestion sequence, started empty, is the
`lastN 50` suffix of the sequence. -/
theorem foldl_ingestFacial_nil (samples : List FacialEntry) :
    samples.foldl ingestFacial [] = lastN 50 samples := by
  have h := foldl_ingestFacial samples []
  simpa [lastN] using h

/-- The voice handler never modifies the voice history. -/
theorem foldl_onVoiceAnalysis (ds : List ℕ) :
    ∀ vs : VoiceTelemetryState,
      (ds.foldl onVoiceAnalysis vs).voiceHistory = vs.voiceHistory := by
  induction ds with
  | nil => intro vs; rfl
  | cons d rest ih => intro vs; rw [List.foldl_cons]; exact ih _

/-- The running total after folding the merge step adds one fifth of the sum
of the merged scores. -/
theorem foldl_updateScore_totalScore (entries : List (ℚ × ℚ)) :
    ∀ s : InterviewScore,
      (entries.foldl (fun a p => updateScoreWithEvaluation a p.1 p.2) s).totalScore =
        s.totalScore + (entries.map Prod.fst).sum * 0.20 := by
  induction entries with
  | nil => intro s; simp
  | cons p rest ih =>
    intro s
    rw [List.foldl_cons, ih]
    simp only [updateScoreWithEvaluation, List.map_cons, List.sum_cons]
    ring

/-- A list of rationals bounded by 100 sums to at most 100 times its length. -/
theorem sum_le_hundred_mul_length (l : List ℚ) (h : ∀ x ∈ l, x ≤ 100) :
    l.sum ≤ 100 * (l.length : ℚ) := by
  induction l with
  | nil => simp
  | cons a t ih =>
    simp only [List.sum_cons, List.length_cons]
    have ha := h a (by simp)
    have ht := ih (fun x hx => h x (by simp [hx]))
    push_cast
    linarith

/-! ## Claim theorems -/

/-- Claim C1: when exactly `MAX_QUESTIONS` (5) answered-question results, each
scored in [0,100], are merged into the initial `InterviewScore` by the
score-merge step (each contributing `score * 0.20` points, so at most
`100 / MAX_QUESTIONS = 20` each), the resulting total score never exceeds
100.  `entries` lists the `(score, responseTime)` pair of each merge. -/
theorem c1_total_score_capped (entries : List (ℚ × ℚ))
    (hlen : entries.length = MAX_QUESTIONS)
    (hb : ∀ p ∈ entries, 0 ≤ p.1 ∧ p.1 ≤ 100) :
    (entries.foldl (fun s p => updateScoreWithEvaluation s p.1 p.2)
        initialInterviewScore).totalScore ≤ 100 := by
  rw [foldl_updateScore_totalScore]
  have h1 : (entries.map Prod.fst).sum ≤ 100 * ((entries.map Prod.fst).length : ℚ) := by
    refine sum_le_hundred_mul_length _ (fun x hx => ?_)
    obtain ⟨p, hp, rfl⟩ := List.mem_map.mp hx
    exact (hb p hp).2
  rw [List.length_map, hlen] at h1
  have h0 : initialInterviewScore.totalScore = 0 := rfl
  rw [h0]
  norm_num [MAX_QUESTIONS] at h1 ⊢
  linarith

/-- Witness for C1 at a concrete run of five in-range scores. -/
theorem c1_total_score_capped_witness :
    ([((100 : ℚ), (30 : ℚ)), (90, 40), (80, 20), (100, 35), (70, 25)].length = MAX_QUESTIONS) ∧
    (∀ p ∈ [((100 : ℚ), (30 : ℚ)), (90, 40), (80, 20), (100, 35), (70, 25)],
      0 ≤ p.1 ∧ p.1 ≤ 100) ∧
    ([((100 : ℚ), (30 : ℚ)), (90, 40), (80, 20), (100, 35), (70, 25)].foldl
        (fun s p => updateScoreWithEvaluation s p.1 p.2)
        initialInterviewScore).totalScore ≤ 100 :=
  ⟨by decide, by decide,
    c1_total_score_capped _ (by decide) (by decide)⟩

/-- Claim C2: the skip penalty is a non-decreasing step function of the skip
rate, and a skip whose resulting skip-rate is at least 0.8 leaves a total
score of at most 15 (the ≥ 0.6 hard cap, which the ≥ 0.8 rate triggers);
additionally a resulting skip-rate of at least 0.4 leaves at most 35. -/
theorem c2_skip_penalty_monotone_and_caps :
    (∀ s1 t1 s2 t2 : ℕ, 0 < t1 → 0 < t2 →
      (s1 : ℚ) / (t1 : ℚ) ≤ (s2 : ℚ) / (t2 : ℚ) →
      calculateSkipPenalty s1 t1 ≤ calculateSkipPenalty s2 t2) ∧
    (∀ prev : InterviewScore,
      (0.8 : ℚ) ≤ ((prev.questionsSkipped + 1 : ℕ) : ℚ) /
          ((prev.questionsAnswered + (prev.questionsSkipped + 1) : ℕ) : ℚ) →
      (skipQuestionUpdate prev).totalScore ≤ 15) ∧
    (∀ prev : InterviewScore,
      (0.4 : ℚ) ≤ ((prev.questionsSkipped + 1 : ℕ) : ℚ) /
          ((prev.questionsAnswered + (prev.questionsSkipped + 1) : ℕ) : ℚ) →
      (skipQuestionUpdate prev).totalScore ≤ 35) := by
  refine ⟨fun s1 t1 s2 t2 ht1 ht2 hr => ?_, fun prev h => ?_, fun prev h => ?_⟩
  · simp only [calculateSkipPenalty]
    split_ifs <;> linarith
  · have h6 : (0.6 : ℚ) ≤ ((prev.questionsSkipped + 1 : ℕ) : ℚ) /
        ((prev.questionsAnswered + (prev.questionsSkipped + 1) : ℕ) : ℚ) := by linarith
    simp only [skipQuestionUpdate]
    rw [if_pos h6]
    exact min_le_right _ _
  · simp only [skipQuestionUpdate]
    split_ifs with h6
    · exact le_trans (min_le_right _ _) (by norm_num)
    · exact min_le_right _ _

unseal Rat.mul Rat.inv Rat.add Rat.sub Rat.ofScientific in
/-- Witness for C2: penalty monotone between skip-rates 1/5 and 4/5, and the
0.8-rate cap at a concrete pre-skip state (1 answered, 3 skipped,
total score 50). -/
theorem c2_skip_penalty_monotone_and_caps_witness :
    ((0 : ℕ) < 5 ∧ (0 : ℕ) < 5 ∧
      ((1 : ℕ) : ℚ) / ((5 : ℕ) : ℚ) ≤ ((4 : ℕ) : ℚ) / ((5 : ℕ) : ℚ) ∧
      calculateSkipPenalty 1 5 ≤ calculateSkipPenalty 4 5) ∧
    ((0.8 : ℚ) ≤ (((3 : ℕ) + 1 : ℕ) : ℚ) / (((1 : ℕ) + ((3 : ℕ) + 1) : ℕ) : ℚ) ∧
      (skipQuestionUpdate
        { totalScore := 50, questionsAnswered := 1, questionsSkipped := 3
          averageResponseTime := 30, confidence := 0.5, engagement := 0.5
          eyeContact := 0.5, communication := 0.5 }).totalScore ≤ 15) :=
  ⟨⟨by decide, by decide, by decide,
      c2_skip_penalty_monotone_and_caps.1 1 5 4 5 (by decide) (by decide) (by decide)⟩,
    ⟨by decide,
      c2_skip_penalty_monotone_and_caps.2.1
        { totalScore := 50, questionsAnswered := 1, questionsSkipped := 3
          averageResponseTime := 30, confidence := 0.5, engagement := 0.5
          eyeContact := 0.5, communication := 0.5 } (by decide)⟩⟩

/-- Claim C3 (amended): the facial telemetry history is bounded by 50 for any
number of ingests, and after more than 50 ingests it holds exactly the most
recent 50 samples (FIFO eviction of the oldest).  The voice handler, by
contrast, never appends to the voice history: ingestion leaves
`analysisHistory.voice` unchanged, so the voice history does not retain the
most recent 50 samples. -/
theorem c3_history_bounds (samples : List FacialEntry) (ds : List ℕ)
    (vs : VoiceTelemetryState) :
    (samples.foldl ingestFacial []).length ≤ 50 ∧
    (50 < samples.length →
      samples.foldl ingestFacial [] = samples.drop (samples.length - 50) ∧
      (samples.foldl ingestFacial []).length = 50) ∧
    (ds.foldl onVoiceAnalysis vs).voiceHistory = vs.voiceHistory := by
  have hf := foldl_ingestFacial_nil samples
  refine ⟨?_, fun hlen => ⟨hf, ?_⟩, foldl_onVoiceAnalysis ds vs⟩
  · rw [hf]
    simp only [lastN, List.length_drop]
    omega
  · rw [hf]
    simp only [lastN, List.length_drop]
    omega

/-- Witness for C3 (amended) at a concrete ingestion run of 51 facial
samples: the retained history is exactly the last 50. -/
theorem c3_history_bounds_witness :
    (50 < ((List.range 51).map
        (fun i => FacialEntry.mk i (FacialData.mk 0 0 0))).length) ∧
    (((List.range 51).map
        (fun i => FacialEntry.mk i (FacialData.mk 0 0 0))).foldl ingestFacial []).length = 50 :=
  ⟨by simp, ((c3_history_bounds
      ((List.range 51).map (fun i => FacialEntry.mk i (FacialData.mk 0 0 0)))
      [] ⟨none, []⟩).2.1 (by simp)).2⟩

/-- Counterexample for C3 as stated: after 51 ingested voice samples the
retained voice history does not have length 50 (the handler stores only the
latest sample and never extends the history, which stays empty from the
initial state). -/
theorem c3_voice_history_not_bounded_counterexample :
    ¬ ((((List.replicate 51 (0 : ℕ)).foldl onVoiceAnalysis
        ⟨none, []⟩).voiceHistory).length = 50) := by
  decide

/-- Claim C7: on any failure of the remote comprehensive evaluation, the
session falls back to the local heuristic on the same transcript and elapsed
time — the processed result is identical to processing a successful remote
response carrying the local heuristic evaluation — the score state merges
normally (answered count increments), no user-facing error is surfaced
(alerts unchanged), and the session advances per the usual rule. -/
theorem c7_remote_failure_falls_back (err : String)
    (facialHistory : List FacialEntry) (r1 r2 now : ℕ) (responseTime : ℚ)
    (st : SessionState) :
    processAnswer (Except.error err) facialHistory r1 r2 now responseTime st =
      processAnswer
        (Except.ok (calculateRealisticScore facialHistory r1 r2
          st.currentAnswer responseTime st.currentQuestion))
        facialHistory r1 r2 now responseTime st ∧
    (processAnswer (Except.error err) facialHistory r1 r2 now responseTime
        st).1.interviewScore.questionsAnswered =
      st.interviewScore.questionsAnswered + 1 ∧
    (processAnswer (Except.error err) facialHistory r1 r2 now responseTime
        st).1.alerts = st.alerts ∧
    (processAnswer (Except.error err) facialHistory r1 r2 now responseTime
        st).2 =
      (if MAX_QUESTIONS ≤ st.interviewScore.questionsAnswered + 1 +
          st.interviewScore.questionsSkipped
        then NextAction.endInterview else NextAction.nextQuestion) :=
  ⟨rfl, rfl, rfl, rfl⟩

/-- Claim C8 (code evaluated at the failing input): at the first question of
a session the captured `currentQuestionNumber` is still 0, the fallback index
is `(0 - 1) % 5 = -1` under JS remainder semantics, and the substituted
"template" is `undefined` (`none`) — not one of the five fixed templates;
from the second question on the lookup is defined. -/
theorem c8_first_question_fallback_undefined :
    fallbackQuestionFor "Software Developer" 0 = none ∧
    jsRem ((0 : ℤ) - 1) 5 = -1 ∧
    (fallbackQuestionFor "Software Developer" 1).isSome = true := by
  refine ⟨?_, by decide, ?_⟩ <;> rfl

/-- Claim C9 (amended): when microphone access is denied, `startRecording`
aborts with the recording flag false, surfaces the permission alert, and
leaves the score state, the recorded responses and the current question
unchanged — but the current answer transcript and the audio chunks are
cleared at entry and stay cleared. -/
theorem c9_mic_denied_aborts (st : SessionState) :
    (startRecording false st).isRecording = false ∧
    (startRecording false st).interviewScore = st.interviewScore ∧
    (startRecording false st).responses = st.responses ∧
    (startRecording false st).currentQuestion = st.currentQuestion ∧
    (startRecording false st).currentAnswer = "" ∧
    (startRecording false st).audioChunks = [] ∧
    (startRecording false st).alerts = st.alerts ++ [micPermissionAlert] :=
  ⟨rfl, rfl, rfl, rfl, rfl, rfl, rfl⟩

/-- Counterexample for C9 as stated: a denied microphone does change session
data — the pending answer transcript is cleared rather than preserved. -/
theorem c9_mic_denied_clears_transcript_counterexample :
    ¬ ((startRecording false
        { isRecording := false
          currentAnswer := "I worked on a team project"
          audioChunks := [1]
          currentQuestion := "Q1"
          interviewScore := initialInterviewScore
          responses := []
          alerts := [] }).currentAnswer = "I worked on a team project") := by
  decide

/-- Claim C10: the skip handler leaves `questionsAnswered`,
`averageResponseTime` and `eyeContact` unchanged, increments only
`questionsSkipped`, and applies the fixed floored decrements to confidence,
engagement and communication. -/
theorem c10_skip_frame (prev : InterviewScore) :
    (skipQuestionUpdate prev).questionsAnswered = prev.questionsAnswered ∧
    (skipQuestionUpdate prev).averageResponseTime = prev.averageResponseTime ∧
    (skipQuestionUpdate prev).eyeContact = prev.eyeContact ∧
    (skipQuestionUpdate prev).questionsSkipped = prev.questionsSkipped + 1 ∧
    (skipQuestionUpdate prev).confidence = max 0.05 (prev.confidence - 0.25) ∧
    (skipQuestionUpdate prev).engagement = max 0.05 (prev.engagement - 0.20) ∧
    (skipQuestionUpdate prev).communication = max 0.05 (prev.communication - 0.15) :=
  ⟨rfl, rfl, rfl, rfl, rfl, rfl, rfl⟩

/-- Claim C4: a transcript with zero countable words or fewer than 3 trimmed
characters short-circuits the scorer: score 0, fixed feedback, no strengths,
the fixed three-item improvement list, and no further scoring branch runs. -/
theorem c4_degenerate_input (facialHistory : List FacialEntry) (r1 r2 : ℕ)
    (answer question : String) (responseTime : ℚ)
    (h : wordCountOf answer = 0 ∨ (trimmedOf answer).length < 3) :
    calculateRealisticScore facialHistory r1 r2 answer responseTime question =
      { score := 0
        feedback := "No meaningful response provided. Please answer the question with specific details."
        strengths := []
        improvements :=
          ["Provide a complete answer to the question",
            "Use specific examples from your experience",
            "Speak clearly and confidently"] } := by
  unfold calculateRealisticScore
  rw [if_pos h]

/-- Witness for C4 at the empty transcript with responseTime 10. -/
theorem c4_degenerate_input_witness :
    (wordCountOf "" = 0 ∨ (trimmedOf "").length < 3) ∧
    calculateRealisticScore [] 0 0 "" 10 "Q" =
      { score := 0
        feedback := "No meaningful response provided. Please answer the question with specific details."
        strengths := []
        improvements :=
          ["Provide a complete answer to the question",
            "Use specific examples from your experience",
            "Speak clearly and confidently"] } :=
  ⟨Or.inl (by decide), c4_degenerate_input [] 0 0 "" "Q" 10 (Or.inl (by decide))⟩

set_option maxRecDepth 8000 in
unseal Rat.mul Rat.inv Rat.add Rat.sub Rat.ofScientific in
/-- Claim C5: on the 60-word STAR transcript with "increased revenue by 20%"
and responseTime 45 s, the local scorer returns at least 85 (clarity 30,
structure ≥ 15, timing 15, quality bonuses ≥ 20) and the feedback begins
"Excellent response" (it is exactly the excellent-band string). -/
theorem c5_scenario_b :
    85 ≤ (calculateRealisticScore [] 0 0 scenarioBTranscript 45 "Q").score ∧
    (calculateRealisticScore [] 0 0 scenarioBTranscript 45 "Q").feedback =
      "Excellent response! Strong content with specific examples and clear impact." ∧
    wordCountOf scenarioBTranscript = 60 ∧
    clarityScore (wordCountOf scenarioBTranscript) = 30 ∧
    15 ≤ structureScore (wordCountOf scenarioBTranscript)
        (sentenceCountOf scenarioBTranscript) (hasCommaOf scenarioBTranscript) ∧
    timingScore 45 = 15 ∧
    20 ≤ bonusScore (wordCountOf scenarioBTranscript)
        (hasSpecificExamplesOf scenarioBTranscript)
        (hasQuantifiableResultsOf scenarioBTranscript)
        (hasSTARStructureOf scenarioBTranscript)
        (technicalTermsOf scenarioBTranscript) := by
  decide

/-- An `if _ then v else 0` summand grows when its guard weakens. -/
theorem ite_le_of_imp {c1 c2 : Prop} [Decidable c1] [Decidable c2]
    (h : c1 → c2) (v : ℕ) :
    (if c1 then v else 0) ≤ (if c2 then v else 0) := by
  split_ifs with h1 h2
  · exact le_refl v
  · exact absurd (h h1) h2
  · exact Nat.zero_le v
  · exact Nat.le_refl 0

/-- The clarity component is non-decreasing in word count. -/
theorem clarityScore_mono {w1 w2 : ℕ} (h : w1 ≤ w2) :
    clarityScore w1 ≤ clarityScore w2 := by
  unfold clarityScore
  have t20 := ite_le_of_imp (fun hc : 20 ≤ w1 => hc.trans h) 10
  have t40 := ite_le_of_imp (fun hc : 40 ≤ w1 => hc.trans h) 10
  have t60 := ite_le_of_imp (fun hc : 60 ≤ w1 => hc.trans h) 10
  omega

/-- The quality bonuses are non-decreasing in word count when the content
flags are held constant. -/
theorem bonusScore_mono {w1 w2 : ℕ} (h : w1 ≤ w2)
    (hasEx hasQuant hasSTAR : Bool) (techTerms : ℕ) :
    bonusScore w1 hasEx hasQuant hasSTAR techTerms ≤
      bonusScore w2 hasEx hasQuant hasSTAR techTerms := by
  unfold bonusScore
  have t1 := ite_le_of_imp (fun hc : hasEx = true ∧ 30 ≤ w1 =>
    (⟨hc.1, hc.2.trans h⟩ : hasEx = true ∧ 30 ≤ w2)) 10
  have t2 := ite_le_of_imp (fun hc : hasQuant = true ∧ 25 ≤ w1 =>
    (⟨hc.1, hc.2.trans h⟩ : hasQuant = true ∧ 25 ≤ w2)) 10
  have t3 := ite_le_of_imp (fun hc : hasSTAR = true ∧ 40 ≤ w1 =>
    (⟨hc.1, hc.2.trans h⟩ : hasSTAR = true ∧ 40 ≤ w2)) 10
  have t4 := ite_le_of_imp (fun hc : 2 ≤ techTerms ∧ 35 ≤ w1 =>
    (⟨hc.1, hc.2.trans h⟩ : 2 ≤ techTerms ∧ 35 ≤ w2)) 5
  omega

/-- A conditional cap step is monotone when the condition only weakens and
the capped value only grows. -/
theorem capStep_mono {a1 a2 : ℤ} {c1 c2 : Prop} [Decidable c1] [Decidable c2]
    (hc : c2 → c1) (ha : a1 ≤ a2) (cap : ℤ) :
    (if c1 then min a1 cap else a1) ≤ (if c2 then min a2 cap else a2) := by
  split_ifs with h1 h2
  · exact min_le_min ha le_rfl
  · exact le_trans (min_le_left _ _) ha
  · exact absurd (hc ‹c2›) h1
  · exact ha

/-- Claim C6: for word counts `15 ≤ w1 ≤ w2`, the full-scoring branch with
all other factors (structure, timing and non-verbal components, content
flags, technical-term count, hedging and capitalisation penalties) held
constant is monotonically non-decreasing in word count, caps included. -/
theorem c6_score_monotone_in_word_count (w1 w2 structureS timingS nonverbalS : ℕ)
    (hasEx hasQuant hasSTAR : Bool) (techTerms : ℕ) (hedging lcHeavy : Bool)
    (h15 : 15 ≤ w1) (h : w1 ≤ w2) :
    fullScoreCore w1 structureS timingS nonverbalS hasEx hasQuant hasSTAR
        techTerms hedging lcHeavy ≤
      fullScoreCore w2 structureS timingS nonverbalS hasEx hasQuant hasSTAR
        techTerms hedging lcHeavy := by
  have hcl := clarityScore_mono h
  have hbo := bonusScore_mono h hasEx hasQuant hasSTAR techTerms
  have hbase :
      clarityScore w1 + structureS + timingS + nonverbalS +
          bonusScore w1 hasEx hasQuant hasSTAR techTerms ≤
        clarityScore w2 + structureS + timingS + nonverbalS +
          bonusScore w2 hasEx hasQuant hasSTAR techTerms := by omega
  simp only [fullScoreCore]
  refine max_le_max le_rfl (min_le_min le_rfl ?_)
  refine capStep_mono (fun hc => hc) ?_ 50
  refine capStep_mono (fun hc => ⟨by omega, hc.2⟩) ?_ 45
  refine capStep_mono (fun hc => by omega) ?_ 35
  cases hedging <;> cases lcHeavy <;> simp <;> omega

/-- Witness for C6 between word counts 15 and 60 with all other factors
fixed. -/
theorem c6_score_monotone_in_word_count_witness :
    (15 ≤ 15 ∧ (15 : ℕ) ≤ 60) ∧
    fullScoreCore 15 20 15 0 true true true 2 false true ≤
      fullScoreCore 60 20 15 0 true true true 2 false true :=
  ⟨⟨by decide, by decide⟩,
    c6_score_monotone_in_word_count 15 60 20 15 0 true true true 2 false true
      (by decide) (by decide)⟩
